import Mathlib

/-!
# Verification of the FatFS core of TFT_EC11_KEY

Shallow embedding of `middleware/fatfs/ff.c` (simplified FatFs R0.15,
configured by `ffconf.h` with `FF_MAX_SS = FF_MIN_SS = 512`, one volume,
read/write build).  The block device is modelled as a fault-free total
map from sector numbers to byte arrays (the claims under study quantify
over fault-free executions; the C code's error paths for failed
transfers are modelled where a claim is about them).

Machine integers: `BYTE`/`WORD`/`DWORD` values are `Nat` with explicit
`% 2^w` at the points where the C code truncates (stores into byte
arrays, `DWORD` wrap-around in `clst2sect`).  Bit operations on
naturally aligned masks are translated arithmetically:
`x & 0x0F = x % 16`, `x & 0xF0 = x / 16 % 16 * 16`,
`x & 0xFFF = x % 4096`, `x >> 4 = x / 16`, and an `|` of values with
disjoint bit ranges is `+`.
-/

namespace FatFs

/-- `FRESULT` codes from `ff.h` (the ones this core can produce). -/
inductive FRESULT where
  | FR_OK
  | FR_DISK_ERR
  | FR_INT_ERR
  | FR_NOT_READY
  | FR_NO_FILE
  | FR_NO_PATH
  | FR_INVALID_NAME
  | FR_DENIED
  | FR_EXIST
  | FR_INVALID_OBJECT
  | FR_WRITE_PROTECTED
  | FR_INVALID_DRIVE
  | FR_NOT_ENABLED
  | FR_NO_FILESYSTEM
  deriving DecidableEq, Repr

export FRESULT (FR_OK FR_DISK_ERR FR_INT_ERR FR_NOT_READY FR_NO_FILE
  FR_NO_PATH FR_INVALID_NAME FR_DENIED FR_EXIST FR_INVALID_OBJECT
  FR_WRITE_PROTECTED FR_INVALID_DRIVE FR_NOT_ENABLED FR_NO_FILESYSTEM)

/-- Numeric value of an `FRESULT`, as in the C `enum`
(used by `ABORT` which stores the code into `fp->err`, a `BYTE`). -/
def FRESULT.num : FRESULT → Nat
  | FR_OK => 0
  | FR_DISK_ERR => 1
  | FR_INT_ERR => 2
  | FR_NOT_READY => 3
  | FR_NO_FILE => 4
  | FR_NO_PATH => 5
  | FR_INVALID_NAME => 6
  | FR_DENIED => 7
  | FR_EXIST => 8
  | FR_INVALID_OBJECT => 9
  | FR_WRITE_PROTECTED => 10
  | FR_INVALID_DRIVE => 11
  | FR_NOT_ENABLED => 12
  | FR_NO_FILESYSTEM => 13

/-- `SS(fs)`: the fixed sector size, `FF_MAX_SS = 512` from `ffconf.h`. -/
def SS : Nat := 512

/-- FAT type tags `FS_FAT12` / `FS_FAT16` / `FS_FAT32` from `ff.c`. -/
def FS_FAT12 : Nat := 1
def FS_FAT16 : Nat := 2
def FS_FAT32 : Nat := 3

/-- The `FATFS` volume object (fields of `ff.h` that the modelled code
touches), together with the block device content.  `disk sec i` is byte
`i` of sector `sec`; `win` is the one-sector window buffer. -/
structure FATFS where
  fs_type : Nat
  csize : Nat
  n_rootdir : Nat
  n_fatent : Nat
  fatbase : Nat
  dirbase : Nat
  database : Nat
  last_clst : Nat
  free_clst : Nat
  id : Nat
  winsect : Nat
  wflag : Bool
  win : Nat → Nat
  disk : Nat → Nat → Nat

/-- `sync_window` (fault-free device): write the window back if dirty,
clear the dirty flag. -/
def sync_window (fs : FATFS) : FATFS :=
  if fs.wflag then
    { fs with
      disk := fun sec i => if sec = fs.winsect then fs.win i else fs.disk sec i
      wflag := false }
  else fs

/-- `move_window` (fault-free device): if the requested sector differs
from the cached one, flush if dirty and load the new sector. -/
def move_window (fs : FATFS) (sect : Nat) : FATFS :=
  if sect = fs.winsect then fs
  else
    let fs1 := sync_window fs
    { fs1 with win := fun i => fs1.disk sect i, winsect := sect }

/-- `get_fat(fs, clst)`: read one FAT entry.  Returns the value and the
volume state after the window movements. -/
def get_fat (fs : FATFS) (clst : Nat) : Nat × FATFS :=
  if clst < 2 ∨ fs.n_fatent ≤ clst then (1, fs)
  else if fs.fs_type = FS_FAT12 then
    let bc := clst + clst / 2
    let fs1 := move_window fs (fs.fatbase + bc / SS)
    let wc0 := fs1.win (bc % SS)
    let fs2 := move_window fs1 (fs.fatbase + (bc + 1) / SS)
    let wc := wc0 + fs2.win ((bc + 1) % SS) * 256
    (if clst % 2 = 1 then wc / 16 else wc % 4096, fs2)
  else if fs.fs_type = FS_FAT16 then
    let fs1 := move_window fs (fs.fatbase + clst / (SS / 2))
    (fs1.win (clst * 2 % SS) + fs1.win (clst * 2 % SS + 1) * 256, fs1)
  else if fs.fs_type = FS_FAT32 then
    let fs1 := move_window fs (fs.fatbase + clst / (SS / 4))
    let off := clst * 4 % SS
    ((fs1.win off + fs1.win (off + 1) * 256 + fs1.win (off + 2) * 65536 +
        fs1.win (off + 3) * 16777216) % 0x10000000, fs1)
  else (1, fs)

/-- `put_fat(fs, clst, val)`: write one FAT entry; `FR_INT_ERR` when the
cluster number is out of range.  Byte stores truncate to 8 bits as the
C assignments into `fs->win` do. -/
def put_fat (fs : FATFS) (clst val : Nat) : FRESULT × FATFS :=
  if 2 ≤ clst ∧ clst < fs.n_fatent then
    if fs.fs_type = FS_FAT12 then
      let bc := clst + clst / 2
      let fs1 := move_window fs (fs.fatbase + bc / SS)
      let p := fs1.win (bc % SS)
      let b0 := if clst % 2 = 1 then p % 16 + val % 16 * 16 else val % 256
      let fs2 := { fs1 with
        win := fun i => if i = bc % SS then b0 else fs1.win i, wflag := true }
      let fs3 := move_window fs2 (fs.fatbase + (bc + 1) / SS)
      let q := fs3.win ((bc + 1) % SS)
      let b1 := if clst % 2 = 1 then val / 16 % 256
                else q / 16 % 16 * 16 + val / 256 % 16
      (FR_OK, { fs3 with
        win := fun i => if i = (bc + 1) % SS then b1 else fs3.win i
        wflag := true })
    else if fs.fs_type = FS_FAT16 then
      let fs1 := move_window fs (fs.fatbase + clst / (SS / 2))
      let off := clst * 2 % SS
      (FR_OK, { fs1 with
        win := fun i =>
          if i = off then val % 256
          else if i = off + 1 then val / 256 % 256
          else fs1.win i
        wflag := true })
    else if fs.fs_type = FS_FAT32 then
      let fs1 := move_window fs (fs.fatbase + clst / (SS / 4))
      let off := clst * 4 % SS
      let old := fs1.win off + fs1.win (off + 1) * 256 +
        fs1.win (off + 2) * 65536 + fs1.win (off + 3) * 16777216
      let v := val % 0x10000000 + old / 0x10000000 % 16 * 0x10000000
      (FR_OK, { fs1 with
        win := fun i =>
          if i = off then v % 256
          else if i = off + 1 then v / 256 % 256
          else if i = off + 2 then v / 65536 % 256
          else if i = off + 3 then v / 16777216 % 256
          else fs1.win i
        wflag := true })
    else (FR_INT_ERR, fs)
  else (FR_INT_ERR, fs)

/-- `clst2sect(fs, clst)`: cluster number to data-area sector, `0` on an
out-of-range cluster.  `clst -= 2` and the final sum use 32-bit (`DWORD`
/ `LBA_t`) wrap-around as in the C. -/
def clst2sect (fs : FATFS) (clst : Nat) : Nat :=
  let c := (clst + (2 ^ 32 - 2)) % 2 ^ 32
  if (fs.n_fatent + (2 ^ 32 - 2)) % 2 ^ 32 ≤ c then 0
  else (fs.database + fs.csize * c) % 2 ^ 32

/-- `check_fs(fs, sect)`: load the candidate boot sector and test the
signature word — the code reads it at `BS_BootSig - 2 = 36` — and the
`"FAT"` type tag at `BS_FilSysType = 54` or `BS_FilSysType32 = 82`. -/
def check_fs (fs : FATFS) (sect : Nat) : FRESULT × FATFS :=
  let fs0 := { fs with wflag := false, winsect := 2 ^ 32 - 1 }
  let fs1 := move_window fs0 sect
  if ¬ (fs1.win 36 + fs1.win 37 * 256 = 0xAA55) then (FR_NO_FILESYSTEM, fs1)
  else if (fs1.win 54 + fs1.win 55 * 256 + fs1.win 56 * 65536 +
      fs1.win 57 * 16777216) % 0x1000000 = 0x544146 then (FR_OK, fs1)
  else if (fs1.win 82 + fs1.win 83 * 256 + fs1.win 84 * 65536 +
      fs1.win 85 * 16777216) % 0x1000000 = 0x544146 then (FR_OK, fs1)
  else (FR_NO_FILESYSTEM, fs1)

/-- Set bit `k` of `x` (`x |= 2^k`, for `x` with untouched bit `k`
semantics of C `|`). -/
def orBit (x k : Nat) : Nat := if x / 2 ^ k % 2 = 1 then x else x + 2 ^ k

/-- Clear bit `k` of `x` (`x &= ~(2^k)`). -/
def clearBit (x k : Nat) : Nat := if x / 2 ^ k % 2 = 1 then x - 2 ^ k else x

/-- `get_fattime()` from `diskio.c`: the fixed packed timestamp
2025-12-12 12:00:00 (`FF_FS_NORTC = 1`). -/
def get_fattime : Nat :=
  45 * 2 ^ 25 + 12 * 2 ^ 21 + 12 * 2 ^ 16 + 12 * 2 ^ 11

/-- The `FIL` file object (fields the modelled code touches).
`fsValid` stands for the `fp->fs` pointer being non-null (attached);
`dir_ofs` is the offset of `fp->dir_ptr` within the sector window. -/
structure FIL where
  fsValid : Bool
  id : Nat
  flag : Nat
  err : Nat
  fptr : Nat
  clust : Nat
  sclust : Nat
  obj_size : Nat
  dir_sect : Nat
  dir_ofs : Nat

/-- One iteration of the `f_read` while-loop (cluster resolution, sector
computation, and either a bulk `disk_read` or a copy through the
window).  `inl` is an `ABORT` (error latched into `fp->err`); `inr`
returns the advanced state and the chunk size `rcnt`.  The caller's
destination buffer is `buf`, written from index `boff`. -/
def f_read_body (fs : FATFS) (fp : FIL) (buf : Nat → Nat) (boff btr : Nat) :
    (FRESULT × FATFS × FIL) ⊕ (FATFS × FIL × (Nat → Nat) × Nat) :=
  let sel : (FRESULT × FATFS × FIL) ⊕ (Nat × FATFS) :=
    if fp.fptr = 0 then .inr (fp.sclust, fs)
    else if fp.fptr % (fs.csize * SS) = 0 then
      let r := get_fat fs fp.clust
      if r.1 < 2 ∨ fs.n_fatent ≤ r.1 then
        .inl (FR_INT_ERR, r.2, { fp with err := FRESULT.num FR_INT_ERR })
      else .inr (r.1, r.2)
    else .inr (fp.clust, fs)
  match sel with
  | .inl a => .inl a
  | .inr (clust, fs1) =>
    let fp1 := { fp with clust := clust }
    let sect0 := clst2sect fs1 fp1.clust
    if sect0 = 0 then
      .inl (FR_INT_ERR, fs1, { fp1 with err := FRESULT.num FR_INT_ERR })
    else
      let csect := fp1.fptr / SS % fs1.csize
      let sect := sect0 + csect
      let cc := btr / SS
      if 0 < cc then
        let cc := if fs1.csize < csect + cc then fs1.csize - csect else cc
        let buf' := fun i =>
          if boff ≤ i ∧ i < boff + cc * SS then
            fs1.disk (sect + (i - boff) / SS) ((i - boff) % SS)
          else buf i
        let rcnt := cc * SS
        let rcnt := if fp1.obj_size < fp1.fptr + rcnt
          then fp1.obj_size - fp1.fptr else rcnt
        .inr (fs1, { fp1 with fptr := fp1.fptr + rcnt }, buf', rcnt)
      else
        let fs2 := move_window fs1 sect
        let rcnt0 := SS - fp1.fptr % SS
        let rcnt1 := if btr < rcnt0 then btr else rcnt0
        let rcnt := if fp1.obj_size < fp1.fptr + rcnt1
          then fp1.obj_size - fp1.fptr else rcnt1
        let buf' := fun i =>
          if boff ≤ i ∧ i < boff + rcnt then
            fs2.win (fp1.fptr % SS + (i - boff))
          else buf i
        .inr (fs2, { fp1 with fptr := fp1.fptr + rcnt }, buf', rcnt)

/-- The `f_read` while-loop.  Each iteration transfers at least one
byte (`rcnt = 0`, unreachable on a mounted volume with `csize ≥ 1`,
exits), so `btr` strictly decreases; the recursion is driven by a
structural `fuel` counter (kept ≥ `btr + 1` by the caller, so the
`fuel = 0` case — which mirrors the normal exit — is never the reason
the loop stops). -/
def f_read_loop (fs : FATFS) (fp : FIL) (buf : Nat → Nat) (boff btr br : Nat) :
    Nat → FRESULT × FATFS × FIL × (Nat → Nat) × Nat
  | 0 => (FR_OK, fs, fp, buf, br)
  | fuel + 1 =>
    if btr = 0 then (FR_OK, fs, fp, buf, br)
    else if fp.obj_size ≤ fp.fptr then (FR_OK, fs, fp, buf, br)
    else
      match f_read_body fs fp buf boff btr with
      | .inl (r, fs', fp') => (r, fs', fp', buf, br)
      | .inr (fs', fp', buf', rcnt) =>
        if rcnt = 0 then (FR_OK, fs', fp', buf', br)
        else f_read_loop fs' fp' buf' (boff + rcnt) (btr - rcnt) (br + rcnt) fuel

/-- `f_read(fp, buff, btr, br)`: validity, latched-error and access-mode
checks, then the transfer loop.  Returns the result, the new volume and
file states, the destination buffer, and `*br`. -/
def f_read (fs : FATFS) (fp : FIL) (buf : Nat → Nat) (btr : Nat) :
    FRESULT × FATFS × FIL × (Nat → Nat) × Nat :=
  if ¬ fp.fsValid then (FR_INVALID_OBJECT, fs, fp, buf, 0)
  else if fp.err ≠ 0 then (FR_INT_ERR, fs, fp, buf, 0)
  else if ¬ (fp.flag % 2 = 1) then (FR_DENIED, fs, fp, buf, 0)
  else f_read_loop fs fp buf 0 btr 0 (btr + 1)

/-- The free-cluster do-while scan inside `f_write`: starting at `clst`
(seeded with `scl`), find a FAT entry equal to 0, wrapping to cluster 2
at the end of the FAT and failing `FR_DENIED` when the wrap returns to
a start value of 2.  `fuel` only guards termination: with
`fuel ≥ 2 * n_fatent + 4` it is never exhausted before the C loop exits
(note the C loop itself never terminates on a full volume when
`scl > 2`; the claims under study never reach that situation). -/
def alloc_scan (fuel : Nat) (fs : FATFS) (scl clst : Nat) :
    FRESULT × Nat × FATFS :=
  match fuel with
  | 0 => (FR_DENIED, 0, fs)
  | fuel + 1 =>
    if fs.n_fatent ≤ clst then
      if scl = 2 then (FR_DENIED, 0, fs)
      else
        let r := get_fat fs 2
        if r.1 = 0 then (FR_OK, 2, r.2) else alloc_scan fuel r.2 scl 3
    else
      let r := get_fat fs clst
      if r.1 = 0 then (FR_OK, clst, r.2) else alloc_scan fuel r.2 scl (clst + 1)

/-- One iteration of the `f_write` while-loop: cluster selection or
allocation, then either a bulk `disk_write` or a copy into the window.
`inl` is an `ABORT`; `inr` returns the advanced state and `wcnt`.
The source buffer is `buf`, read from index `boff`. -/
def f_write_body (fs : FATFS) (fp : FIL) (buf : Nat → Nat) (boff btw : Nat) :
    (FRESULT × FATFS × FIL) ⊕ (FATFS × FIL × Nat) :=
  let sel : (FRESULT × FATFS × FIL) ⊕ (Nat × FATFS) :=
    if fp.fptr = 0 ∧ fp.sclust = 0 then
      -- first write to an empty file: allocate the start cluster
      let scl := if fs.last_clst < 2 ∨ fs.n_fatent ≤ fs.last_clst
        then 2 else fs.last_clst
      let a := alloc_scan (2 * fs.n_fatent + 4) fs scl scl
      if a.1 ≠ FR_OK then
        .inl (FR_DENIED, a.2.2, { fp with err := FRESULT.num FR_DENIED })
      else
        let p := put_fat a.2.2 a.2.1 0x0FFFFFFF
        if p.1 ≠ FR_OK then
          .inl (p.1, p.2, { fp with err := p.1.num })
        else .inr (a.2.1, { p.2 with last_clst := a.2.1 })
    else if fp.fptr % (fs.csize * SS) = 0 then
      if fp.fptr = 0 then .inr (fp.sclust, fs)
      else
        let r := get_fat fs fp.clust
        if r.1 < 2 then
          -- allocate a new cluster and link it
          let scl := if fs.n_fatent ≤ fp.clust + 1 then 2 else fp.clust + 1
          let a := alloc_scan (2 * fs.n_fatent + 4) r.2 scl scl
          if a.1 ≠ FR_OK then
            .inl (FR_DENIED, a.2.2, { fp with err := FRESULT.num FR_DENIED })
          else
            let p1 := put_fat a.2.2 a.2.1 0x0FFFFFFF
            if p1.1 ≠ FR_OK then .inl (p1.1, p1.2, { fp with err := p1.1.num })
            else
              let p2 := put_fat p1.2 fp.clust a.2.1
              if p2.1 ≠ FR_OK then .inl (p2.1, p2.2, { fp with err := p2.1.num })
              else .inr (a.2.1, { p2.2 with last_clst := a.2.1 })
        else .inr (r.1, r.2)
    else .inr (fp.clust, fs)
  match sel with
  | .inl a => .inl a
  | .inr (clust, fs1) =>
    let fp1 := if fp.fptr = 0 ∧ fp.sclust = 0 then
        { fp with sclust := clust, clust := clust }
      else { fp with clust := clust }
    let sect0 := clst2sect fs1 fp1.clust
    if sect0 = 0 then
      .inl (FR_INT_ERR, fs1, { fp1 with err := FRESULT.num FR_INT_ERR })
    else
      let csect := fp1.fptr / SS % fs1.csize
      let sect := sect0 + csect
      let cc := btw / SS
      let st :=
        if 0 < cc then
          let cc := if fs1.csize < csect + cc then fs1.csize - csect else cc
          let dsk := fun sec i =>
            if sect ≤ sec ∧ sec < sect + cc ∧ i < SS then
              buf (boff + (sec - sect) * SS + i)
            else fs1.disk sec i
          ({ fs1 with disk := dsk }, cc * SS)
        else
          let fs2 := move_window fs1 sect
          let wcnt0 := SS - fp1.fptr % SS
          let wcnt := if btw < wcnt0 then btw else wcnt0
          let w := fun i =>
            if fp1.fptr % SS ≤ i ∧ i < fp1.fptr % SS + wcnt then
              buf (boff + (i - fp1.fptr % SS))
            else fs2.win i
          ({ fs2 with win := w, wflag := true }, wcnt)
      let wcnt := st.2
      let fptr' := fp1.fptr + wcnt
      .inr (st.1, { fp1 with
        fptr := fptr'
        obj_size := if fp1.obj_size < fptr' then fptr' else fp1.obj_size }, wcnt)

/-- The `f_write` while-loop.  Each iteration transfers at least one
byte (`wcnt = 0`, unreachable on a mounted volume with `csize ≥ 1`,
exits), so `btw` strictly decreases; the recursion is driven by a
structural `fuel` counter (kept ≥ `btw + 1` by the caller, so the
`fuel = 0` case — which mirrors the normal exit — is never the reason
the loop stops). -/
def f_write_loop (fs : FATFS) (fp : FIL) (buf : Nat → Nat) (boff btw bw : Nat) :
    Nat → FRESULT × FATFS × FIL × Nat
  | 0 => (FR_OK, fs, fp, bw)
  | fuel + 1 =>
    if btw = 0 then (FR_OK, fs, fp, bw)
    else
      match f_write_body fs fp buf boff btw with
      | .inl (r, fs', fp') => (r, fs', fp', bw)
      | .inr (fs', fp', wcnt) =>
        if wcnt = 0 then (FR_OK, fs', fp', bw)
        else f_write_loop fs' fp' buf (boff + wcnt) (btw - wcnt) (bw + wcnt) fuel

/-- `f_write(fp, buff, btw, bw)`: validity, latched-error and
access-mode checks, the transfer loop, then `fp->flag |= 0x40`
(modified) on normal completion. -/
def f_write (fs : FATFS) (fp : FIL) (buf : Nat → Nat) (btw : Nat) :
    FRESULT × FATFS × FIL × Nat :=
  if ¬ fp.fsValid then (FR_INVALID_OBJECT, fs, fp, 0)
  else if fp.err ≠ 0 then (FR_INT_ERR, fs, fp, 0)
  else if ¬ (fp.flag / 2 % 2 = 1) then (FR_DENIED, fs, fp, 0)
  else
    let r := f_write_loop fs fp buf 0 btw 0 (btw + 1)
    if r.1 = FR_OK then
      (FR_OK, r.2.1, { r.2.2.1 with flag := orBit r.2.2.1.flag 6 }, r.2.2.2)
    else r

/-- `f_sync(fp)`: if the handle is dirty (`flag & 0x40`), rewrite its
32-byte directory entry (attribute `|= AM_ARC`, size, start cluster,
fresh timestamp) through the window, then flush the window.  Note: the
code does NOT check `fp->err` here. -/
def f_sync (fs : FATFS) (fp : FIL) : FRESULT × FATFS × FIL :=
  if ¬ fp.fsValid then (FR_INVALID_OBJECT, fs, fp)
  else if fp.flag / 64 % 2 = 1 then
    let fs1 := move_window fs fp.dir_sect
    let d := fp.dir_ofs
    let attr := orBit (fs1.win (d + 11)) 5
    let sz := fp.obj_size
    let sc := fp.sclust
    let tm := get_fattime
    let w := fun i =>
      if i = d + 11 then attr
      else if i = d + 28 then sz % 256
      else if i = d + 29 then sz / 256 % 256
      else if i = d + 30 then sz / 65536 % 256
      else if i = d + 31 then sz / 16777216 % 256
      else if i = d + 26 then sc % 256
      else if i = d + 27 then sc / 256 % 256
      else if i = d + 20 then sc / 65536 % 256
      else if i = d + 21 then sc / 65536 / 256 % 256
      else if i = d + 22 then tm % 256
      else if i = d + 23 then tm / 256 % 256
      else if i = d + 24 then tm / 65536 % 256
      else if i = d + 25 then tm / 16777216 % 256
      else fs1.win i
    let fs2 := { fs1 with win := w, wflag := true }
    (FR_OK, sync_window fs2, { fp with flag := clearBit fp.flag 6 })
  else (FR_OK, sync_window fs, fp)

/-- `f_close(fp)`: sync, then detach the handle from its volume. -/
def f_close (fs : FATFS) (fp : FIL) : FRESULT × FATFS × FIL :=
  if ¬ fp.fsValid then (FR_INVALID_OBJECT, fs, fp)
  else
    let r := f_sync fs fp
    (r.1, r.2.1, { r.2.2 with fsValid := false })

/-- The `f_lseek` chain-walking while-loop followed by the final
`fp->fptr += ofs`.  Breaking at end of chain returns `FR_INT_ERR` for a
read-only handle, or falls through to the final add for a writable one.
The `bcs = 0` exit is unreachable on a mounted volume (`csize ≥ 1`). -/
def f_lseek_loop (fs : FATFS) (fp : FIL) (ofs bcs : Nat) :
    Nat → FRESULT × FATFS × FIL
  | 0 => (FR_OK, fs, { fp with fptr := fp.fptr + ofs })
  | fuel + 1 =>
    if bcs = 0 then (FR_OK, fs, { fp with fptr := fp.fptr + ofs })
    else if ofs ≤ bcs then (FR_OK, fs, { fp with fptr := fp.fptr + ofs })
    else
      let r := get_fat fs fp.clust
      if r.1 < 2 ∨ fs.n_fatent ≤ r.1 then
        if ¬ (fp.flag / 2 % 2 = 1) then (FR_INT_ERR, r.2, fp)
        else (FR_OK, r.2, { fp with fptr := fp.fptr + ofs })
      else f_lseek_loop r.2 { fp with clust := r.1, fptr := fp.fptr + bcs }
        (ofs - bcs) bcs fuel

/-- `f_lseek(fp, ofs)`: clamp to the object size for read-only handles,
pick up from the aligned position below the current `fptr` when the
target is in or beyond the current cluster, then walk the FAT chain.
`(ifptr - 1) & ~(bcs - 1)` is align-down (`bcs` is a power of two on a
mounted volume). -/
def f_lseek (fs : FATFS) (fp : FIL) (ofs : Nat) : FRESULT × FATFS × FIL :=
  if ¬ fp.fsValid then (FR_INVALID_OBJECT, fs, fp)
  else if fp.err ≠ 0 then (FR_INT_ERR, fs, fp)
  else
    let ofs := if fp.obj_size < ofs ∧ ¬ (fp.flag / 2 % 2 = 1)
      then fp.obj_size else ofs
    let ifptr := fp.fptr
    let fp := { fp with fptr := 0 }
    if ofs = 0 then (FR_OK, fs, fp)
    else
      let bcs := fs.csize * SS
      let start :=
        if 0 < ifptr ∧ (ifptr - 1) / bcs ≤ (ofs - 1) / bcs then
          ({ fp with fptr := (ifptr - 1) / bcs * bcs }, ofs - (ifptr - 1) / bcs * bcs)
        else (fp, ofs)
      let fp := start.1
      let ofs := start.2
      let clst := fp.sclust
      if clst = 0 then
        if 0 < ofs then (FR_INT_ERR, fs, fp)
        else (FR_OK, fs, { fp with clust := clst })
      else
        let fp := if fp.fptr = 0 then { fp with clust := clst } else fp
        f_lseek_loop fs fp ofs bcs (ofs + 1)

/-- Upper-case an ASCII byte: `(c >= 'a' && c <= 'z') ? c - 32 : c`. -/
def upc (c : Nat) : Nat := if 97 ≤ c ∧ c ≤ 122 then c - 32 else c

/-- The 8.3-name normalisation performed inline by `f_open`'s compare
loop (hoisted out of the entry loop; it only depends on `path`): copy
up to 8 upper-cased characters of the base, stopping at NUL or `'.'`;
if the next character is `'.'`, copy up to 3 upper-cased extension
characters; pad both parts with spaces to 11 bytes.  The end of the
list plays the role of the C string's NUL terminator. -/
def buildSFN (p : List Nat) : List Nat :=
  let base := (p.takeWhile fun c => ¬ (c = 0 ∨ c = 46)).take 8
  let rest := p.drop base.length
  let ext := if rest.getD 0 0 = 46
    then ((rest.drop 1).takeWhile fun c => ¬ (c = 0)).take 3 else []
  (base.map upc ++ List.replicate (8 - base.length) 32) ++
    (ext.map upc ++ List.replicate (3 - ext.length) 32)

/-- The directory-entry scan loop of `f_open` (lookup phase): walk the
root directory's 32-byte entries, advancing the window one sector every
`SS / 32 = 16` entries; stop at a zero first byte; skip deleted
(`0xE5`) and directory-attribute entries; return the `(sector, offset)`
of the first entry whose 11 name bytes equal `sfn`.  `fuel` bounds the
iteration count (the caller passes at least the loop bound, so the
`fuel = 0` case is never reached before the loop condition fails). -/
def f_open_find (fs : FATFS) (sfn : List Nat) (sect i : Nat) :
    Nat → FATFS × Nat × Option (Nat × Nat)
  | 0 => (fs, sect, none)
  | fuel + 1 =>
    if ¬ (i < fs.n_rootdir ∨ (fs.fs_type = FS_FAT32 ∧ i < 512)) then
      (fs, sect, none)
    else
      let sect := if 0 < i ∧ i % (SS / 32) = 0 then sect + 1 else sect
      let fs := if 0 < i ∧ i % (SS / 32) = 0 then move_window fs sect else fs
      let off := i % (SS / 32) * 32
      if fs.win (off + 0) = 0 then (fs, sect, none)
      else if fs.win (off + 0) = 0xE5 then f_open_find fs sfn sect (i + 1) fuel
      else if fs.win (off + 11) / 16 % 2 = 1 then
        f_open_find fs sfn sect (i + 1) fuel
      else if (List.range 11).all
          (fun j => fs.win (off + j) == sfn.getD j 0) then
        (fs, sect, some (sect, off))
      else f_open_find fs sfn sect (i + 1) fuel

/-- The directory-entry scan loop of `f_open` (create phase): find the
first free or deleted slot. -/
def f_open_free_slot (fs : FATFS) (sect i : Nat) :
    Nat → FATFS × Option (Nat × Nat)
  | 0 => (fs, none)
  | fuel + 1 =>
    if ¬ (i < fs.n_rootdir ∨ (fs.fs_type = FS_FAT32 ∧ i < 512)) then (fs, none)
    else
      let sect := if 0 < i ∧ i % (SS / 32) = 0 then sect + 1 else sect
      let fs := if 0 < i ∧ i % (SS / 32) = 0 then move_window fs sect else fs
      let off := i % (SS / 32) * 32
      if fs.win (off + 0) = 0 ∨ fs.win (off + 0) = 0xE5 then
        (fs, some (sect, off))
      else f_open_free_slot fs sect (i + 1) fuel

/-- `f_open(fp, path, mode)` (this simplified core resolves one 8.3
name in the root directory).  `path[0]` must be the drive digit `'0'`
(`FF_VOLUMES = 1`), `path[1]` must be `':'`; an optional leading slash
is skipped.  On a lookup hit the `FIL` is populated from the directory
entry; on a miss with a create-capable mode the first free slot is
populated and flushed; otherwise `FR_NO_FILE`. -/
def f_open (fs : FATFS) (path : List Nat) (mode : Nat) :
    FRESULT × FATFS × Option FIL :=
  if ¬ (path.getD 0 0 = 48) then (FR_INVALID_DRIVE, fs, none)
  else if ¬ (path.getD 1 0 = 58) then (FR_INVALID_NAME, fs, none)
  else if fs.fs_type = 0 then (FR_NOT_ENABLED, fs, none)
  else
    let p0 := path.drop 2
    let p := if p0.getD 0 0 = 47 ∨ p0.getD 0 0 = 92 then p0.drop 1 else p0
    let sect0 := if fs.fs_type = FS_FAT32 then clst2sect fs fs.dirbase
      else fs.dirbase
    let fs1 := move_window fs sect0
    let sfn := buildSFN p
    let found := f_open_find fs1 sfn sect0 0 (fs1.n_rootdir + 512)
    match found.2.2 with
    | some so =>
      let fsF := found.1
      let off := so.2
      let osize := fsF.win (off + 28) + fsF.win (off + 29) * 256 +
        fsF.win (off + 30) * 65536 + fsF.win (off + 31) * 16777216
      let scl := (fsF.win (off + 20) + fsF.win (off + 21) * 256) * 65536 +
        fsF.win (off + 26) + fsF.win (off + 27) * 256
      (FR_OK, fsF, some {
        fsValid := true, id := fsF.id, flag := mode, err := 0, fptr := 0
        clust := scl, sclust := scl, obj_size := osize
        dir_sect := so.1, dir_ofs := off })
    | none =>
      if mode / 4 % 8 ≠ 0 then
        -- FA_CREATE_ALWAYS | FA_CREATE_NEW | FA_OPEN_ALWAYS
        let fs2 := move_window found.1 sect0
        let slot := f_open_free_slot fs2 sect0 0 (fs2.n_rootdir + 512)
        match slot.2 with
        | none => (FR_DENIED, slot.1, none)
        | some so =>
          let fsS := slot.1
          let d := so.2
          let tm := get_fattime
          let w := fun i =>
            if d ≤ i ∧ i < d + 32 then
              if i - d < 11 then sfn.getD (i - d) 0
              else if i - d = 11 then 32
              else if i - d = 22 then tm % 256
              else if i - d = 23 then tm / 256 % 256
              else if i - d = 24 then tm / 65536 % 256
              else if i - d = 25 then tm / 16777216 % 256
              else 0
            else fsS.win i
          let fs3 := sync_window { fsS with win := w, wflag := true }
          (FR_OK, fs3, some {
            fsValid := true, id := fs3.id, flag := mode, err := 0, fptr := 0
            clust := 0, sclust := 0, obj_size := 0
            dir_sect := so.1, dir_ofs := d })
      else (FR_NO_FILE, found.1, none)

/-- The `DIR` directory-iterator object. -/
structure DIRobj where
  fsValid : Bool
  id : Nat
  index : Nat
  sclust : Nat

/-- The decoded `FILINFO` record.  An empty `fname` is the C
`fname[0] = 0` end-of-directory marker. -/
structure FILINFO where
  fname : List Nat
  fattrib : Nat
  fsize : Nat
  fdate : Nat
  ftime : Nat
  deriving DecidableEq, Repr

/-- The `f_readdir` scan loop from entry index `i`: skip deleted and
volume-label entries, decode the first remaining entry into a
`FILINFO`, and advance the iterator index past it. -/
def f_readdir_loop (fs : FATFS) (dp : DIRobj) (sect i : Nat) :
    Nat → FRESULT × FATFS × DIRobj × Option FILINFO
  | 0 => (FR_OK, fs, { dp with index := i }, some ⟨[], 0, 0, 0, 0⟩)
  | fuel + 1 =>
    if ¬ (i < fs.n_rootdir ∨ (fs.fs_type = FS_FAT32 ∧ i < 512)) then
      (FR_OK, fs, { dp with index := i }, some ⟨[], 0, 0, 0, 0⟩)
    else
      let sect := if dp.index < i ∧ i % (SS / 32) = 0 then sect + 1 else sect
      let fs := if dp.index < i ∧ i % (SS / 32) = 0 then move_window fs sect
        else fs
      let off := i % (SS / 32) * 32
      if fs.win (off + 0) = 0 then
        (FR_OK, fs, { dp with index := i }, some ⟨[], 0, 0, 0, 0⟩)
      else if fs.win (off + 0) = 0xE5 then f_readdir_loop fs dp sect (i + 1) fuel
      else if fs.win (off + 11) / 8 % 2 = 1 then
        f_readdir_loop fs dp sect (i + 1) fuel
      else
        let baseN := ((List.range 8).map fun j => fs.win (off + j)).takeWhile
          (fun c => ¬ (c = 32))
        let extN := (([8, 9, 10].map fun j => fs.win (off + j))).takeWhile
          (fun c => ¬ (c = 32))
        let name := if fs.win (off + 8) = 32 then baseN else baseN ++ 46 :: extN
        let fi : FILINFO := {
          fname := name
          fattrib := fs.win (off + 11)
          fsize := fs.win (off + 28) + fs.win (off + 29) * 256 +
            fs.win (off + 30) * 65536 + fs.win (off + 31) * 16777216
          fdate := fs.win (off + 24) + fs.win (off + 25) * 256
          ftime := fs.win (off + 22) + fs.win (off + 23) * 256 }
        (FR_OK, fs, { dp with index := i + 1 }, some fi)

/-- `f_readdir(dp, fno)`: with a null `fno` (modelled as `fno = false`)
rewind the iterator; otherwise scan from the current index.  Returns
the decoded entry when `fno` is non-null. -/
def f_readdir (fs : FATFS) (dp : DIRobj) (fno : Bool) :
    FRESULT × FATFS × DIRobj × Option FILINFO :=
  if ¬ dp.fsValid then (FR_INVALID_OBJECT, fs, dp, none)
  else if ¬ fno then (FR_OK, fs, { dp with index := 0 }, none)
  else
    let sect0 := (if fs.fs_type = FS_FAT32 then clst2sect fs dp.sclust
      else fs.dirbase) + dp.index / (SS / 32)
    let fs1 := move_window fs sect0
    f_readdir_loop fs1 dp sect0 dp.index (fs1.n_rootdir + 512)

/-- The `f_getfree` FAT scan: count entries equal to 0 over `count`
clusters starting at `clst` (the caller passes
`count = n_fatent - 2, clst = 2`, the loop bound of the C `for`, which
is loop-invariant since `get_fat` does not change `n_fatent`). -/
def f_getfree_scan (fs : FATFS) (clst n : Nat) : Nat → Nat × FATFS
  | 0 => (n, fs)
  | count + 1 =>
    let r := get_fat fs clst
    f_getfree_scan r.2 (clst + 1) (if r.1 = 0 then n + 1 else n) count

/-- `f_getfree(path, nclst, fatfs)`: return the cached free-cluster
count if it is plausible (`free_clst <= n_fatent - 2`), else scan the
whole FAT and cache the result.  Returns `(result, volume, *nclst)`. -/
def f_getfree (fs : FATFS) (path : List Nat) : FRESULT × FATFS × Nat :=
  if ¬ (path.getD 0 0 = 48) then (FR_INVALID_DRIVE, fs, 0)
  else if fs.fs_type = 0 then (FR_NOT_ENABLED, fs, 0)
  else if fs.free_clst ≤ fs.n_fatent - 2 then (FR_OK, fs, fs.free_clst)
  else
    let r := f_getfree_scan fs 2 0 (fs.n_fatent - 2)
    (FR_OK, { r.2 with free_clst := r.1 }, r.1)

/-! ## Semantic view of the sector window

`ov fs` is the logical content of the storage: the window overlays its
cached sector.  `coherent fs` is the reachable-state invariant that a
clean window mirrors the disk (every state produced by `move_window` /
`sync_window` and the writers above satisfies it).  `fatVal` is the
pure FAT-entry reader over a byte view, the abstraction of `get_fat`.
These are verification artifacts, not code translations. -/

/-- The logical byte content of the volume: the window overlays the
disk at `winsect`. -/
def ov (fs : FATFS) (sec i : Nat) : Nat :=
  if sec = fs.winsect then fs.win i else fs.disk sec i

/-- Window coherence: a clean window holds a copy of its disk sector. -/
def coherent (fs : FATFS) : Prop :=
  fs.wflag = false → ∀ i, fs.win i = fs.disk fs.winsect i

/-- Pure FAT-entry reader over a byte view `d`, mirroring `get_fat`'s
addressing and extraction. -/
def fatVal (ty nfatent fatbase : Nat) (d : Nat → Nat → Nat) (clst : Nat) : Nat :=
  if clst < 2 ∨ nfatent ≤ clst then 1
  else if ty = FS_FAT12 then
    let bc := clst + clst / 2
    let wc := d (fatbase + bc / SS) (bc % SS) +
      d (fatbase + (bc + 1) / SS) ((bc + 1) % SS) * 256
    if clst % 2 = 1 then wc / 16 else wc % 4096
  else if ty = FS_FAT16 then
    d (fatbase + clst / (SS / 2)) (clst * 2 % SS) +
      d (fatbase + clst / (SS / 2)) (clst * 2 % SS + 1) * 256
  else if ty = FS_FAT32 then
    (d (fatbase + clst / (SS / 4)) (clst * 4 % SS) +
      d (fatbase + clst / (SS / 4)) (clst * 4 % SS + 1) * 256 +
      d (fatbase + clst / (SS / 4)) (clst * 4 % SS + 2) * 65536 +
      d (fatbase + clst / (SS / 4)) (clst * 4 % SS + 3) * 16777216) % 0x10000000
  else 1

/-- The raw (unmasked) 32-bit little-endian word stored at a FAT32
entry's position, over a byte view `d`. -/
def rawFat32 (fatbase : Nat) (d : Nat → Nat → Nat) (clst : Nat) : Nat :=
  d (fatbase + clst / (SS / 4)) (clst * 4 % SS) +
    d (fatbase + clst / (SS / 4)) (clst * 4 % SS + 1) * 256 +
    d (fatbase + clst / (SS / 4)) (clst * 4 % SS + 2) * 65536 +
    d (fatbase + clst / (SS / 4)) (clst * 4 % SS + 3) * 16777216

/-- Number of free FAT entries (value 0) over clusters `[2, nfatent)`
of a byte view, the specification of `f_getfree`'s scan. -/
def freeFatCount (ty nfatent fatbase : Nat) (d : Nat → Nat → Nat) : Nat :=
  (List.range' 2 (nfatent - 2)).countP
    (fun c => fatVal ty nfatent fatbase d c == 0)

/-- Geometry fields untouched by window traffic and FAT updates. -/
def sameGeom (a b : FATFS) : Prop :=
  a.fs_type = b.fs_type ∧ a.csize = b.csize ∧ a.n_rootdir = b.n_rootdir ∧
  a.n_fatent = b.n_fatent ∧ a.fatbase = b.fatbase ∧ a.dirbase = b.dirbase ∧
  a.database = b.database

/-- Number of values representable in a FAT entry of the given type
(12, 16 or 28 significant bits). -/
def fatWidth (ty : Nat) : Nat :=
  if ty = FS_FAT12 then 4096
  else if ty = FS_FAT16 then 65536
  else 0x10000000

/-! ## Concrete test volumes (used by counterexamples and witnesses) -/

/-- A freshly mounted all-free FAT16 test volume: 512-byte sectors, one
sector per cluster, FAT at sector 1, root directory at sector 9, data
from sector 10, 98 data clusters; blank disk; window parked on an
unused sector. -/
def volBlank : FATFS := {
  fs_type := FS_FAT16, csize := 1, n_rootdir := 16, n_fatent := 100
  fatbase := 1, dirbase := 9, database := 10
  last_clst := 2 ^ 32 - 1, free_clst := 2 ^ 32 - 1, id := 1
  winsect := 999, wflag := false
  win := fun _ => 0, disk := fun _ _ => 0 }

/-- A fresh empty writable file handle on `volBlank` (as produced by a
create-mode `f_open`): zero size, no start cluster. -/
def filBlank : FIL := {
  fsValid := true, id := 1, flag := 3, err := 0, fptr := 0
  clust := 0, sclust := 0, obj_size := 0, dir_sect := 9, dir_ofs := 0 }

/-- A standards-formatted FAT boot sector image: signature word 0xAA55
at offset 0x1FE, `"FAT"` type tag at `BS_FilSysType = 54`, drive number
0x80 at `BS_DrvNum = 36`. -/
def bootStd : Nat → Nat := fun i =>
  if i = 510 then 0x55 else if i = 511 then 0xAA
  else if i = 54 then 0x46 else if i = 55 then 0x41 else if i = 56 then 0x54
  else if i = 36 then 0x80 else 0

/-- A sector carrying 0xAA55 at offset 36 and the `"FAT"` tag, but NO
signature at offset 0x1FE (bytes 510/511 are zero). -/
def bootOdd : Nat → Nat := fun i =>
  if i = 36 then 0x55 else if i = 37 then 0xAA
  else if i = 54 then 0x46 else if i = 55 then 0x41 else if i = 56 then 0x54
  else 0

/-- An unmounted volume object over a device whose sector 0 is `b`. -/
def volOfBoot (b : Nat → Nat) : FATFS := {
  fs_type := 0, csize := 0, n_rootdir := 0, n_fatent := 0
  fatbase := 0, dirbase := 0, database := 0
  last_clst := 0, free_clst := 0, id := 0
  winsect := 5, wflag := false
  win := fun _ => 0, disk := fun sec i => if sec = 0 then b i else 0 }

/-- A dirty handle (modified flag 0x40 set) whose error flag is
latched (`err = 2`), attached to `volBlank`'s directory sector. -/
def filErrLatched : FIL := {
  fsValid := true, id := 1, flag := 0x40 + 3, err := 2, fptr := 10
  clust := 2, sclust := 2, obj_size := 10, dir_sect := 9, dir_ofs := 0 }

/-- `volBlank`'s root-directory sector 9 holding one 8.3 entry
`"ABCDEFGH"` (no extension, archive attribute). -/
def volDirEntry : FATFS := { volBlank with
  disk := fun sec i =>
    if sec = 9 then
      if i < 8 then 65 + i else if i = 11 then 32
      else if i < 11 then 32 else 0
    else 0 }

/-- The path string `"0:ABCDEFGHIJ"`: drive 0, a name whose base has
10 characters. -/
def pathLong : List Nat := [48, 58, 65, 66, 67, 68, 69, 70, 71, 72, 73, 74]

/-- A small all-free FAT16 volume with 4 data clusters and a correctly
cached free count of 4 (`free_clst = 4 = n_fatent - 2`). -/
def volCached : FATFS := { volBlank with n_fatent := 6, free_clst := 4 }

/-! ## Window lemmas -/

@[simp] theorem sync_window_fs_type (fs : FATFS) :
    (sync_window fs).fs_type = fs.fs_type := by
  unfold sync_window; split <;> rfl

@[simp] theorem sync_window_n_fatent (fs : FATFS) :
    (sync_window fs).n_fatent = fs.n_fatent := by
  unfold sync_window; split <;> rfl

@[simp] theorem sync_window_fatbase (fs : FATFS) :
    (sync_window fs).fatbase = fs.fatbase := by
  unfold sync_window; split <;> rfl

@[simp] theorem sync_window_winsect (fs : FATFS) :
    (sync_window fs).winsect = fs.winsect := by
  unfold sync_window; split <;> rfl

@[simp] theorem sync_window_win (fs : FATFS) :
    (sync_window fs).win = fs.win := by
  unfold sync_window; split <;> rfl

@[simp] theorem move_window_fs_type (fs : FATFS) (sect : Nat) :
    (move_window fs sect).fs_type = fs.fs_type := by
  unfold move_window; split <;> simp

@[simp] theorem move_window_n_fatent (fs : FATFS) (sect : Nat) :
    (move_window fs sect).n_fatent = fs.n_fatent := by
  unfold move_window; split <;> simp

@[simp] theorem move_window_fatbase (fs : FATFS) (sect : Nat) :
    (move_window fs sect).fatbase = fs.fatbase := by
  unfold move_window; split <;> simp

@[simp] theorem move_window_winsect (fs : FATFS) (sect : Nat) :
    (move_window fs sect).winsect = sect := by
  unfold move_window; split
  · omega
  · rfl

@[simp] theorem sync_window_free_clst (fs : FATFS) :
    (sync_window fs).free_clst = fs.free_clst := by
  unfold sync_window; split <;> rfl

@[simp] theorem sync_window_last_clst (fs : FATFS) :
    (sync_window fs).last_clst = fs.last_clst := by
  unfold sync_window; split <;> rfl

@[simp] theorem move_window_free_clst (fs : FATFS) (sect : Nat) :
    (move_window fs sect).free_clst = fs.free_clst := by
  unfold move_window; split <;> simp

@[simp] theorem move_window_last_clst (fs : FATFS) (sect : Nat) :
    (move_window fs sect).last_clst = fs.last_clst := by
  unfold move_window; split <;> simp

theorem ov_sync_window (fs : FATFS) : ov (sync_window fs) = ov fs := by
  funext sec i
  unfold ov sync_window
  by_cases hw : fs.wflag <;> by_cases hs : sec = fs.winsect <;> simp [hw, hs]

theorem move_window_win_eq (fs : FATFS) (sect i : Nat) :
    (move_window fs sect).win i = ov fs sect i := by
  unfold move_window ov sync_window
  by_cases hs : sect = fs.winsect <;> by_cases hw : fs.wflag <;>
    simp [hs, hw]

theorem move_window_ov (fs : FATFS) (h : coherent fs) (sect : Nat) :
    ov (move_window fs sect) = ov fs := by
  funext sec i
  unfold move_window
  by_cases hs : sect = fs.winsect
  · simp [hs]
  · simp only [hs, if_false]
    unfold ov sync_window
    by_cases hw : fs.wflag
    · by_cases hsec : sec = sect <;> by_cases hsec2 : sec = fs.winsect <;>
        simp_all
    · have hc := h (by simpa using hw)
      by_cases hsec : sec = sect <;> by_cases hsec2 : sec = fs.winsect <;>
        simp_all [hc i]

theorem move_window_coherent (fs : FATFS) (h : coherent fs) (sect : Nat) :
    coherent (move_window fs sect) := by
  unfold move_window
  by_cases hs : sect = fs.winsect
  · simpa [hs] using h
  · simp only [hs, if_false]
    intro _ i
    rfl

/-- The overlay after an in-place window write. -/
theorem ov_write (fsW : FATFS) (u : Nat → Nat) :
    ov { fsW with win := u, wflag := true } =
      fun sec i => if sec = fsW.winsect then u i else ov fsW sec i := by
  funext sec i
  unfold ov
  by_cases h : sec = fsW.winsect <;> simp [h]

/-! ## `get_fat` abstraction -/

@[simp] theorem get_fat_fs_type (fs : FATFS) (clst : Nat) :
    (get_fat fs clst).2.fs_type = fs.fs_type := by
  unfold get_fat; split_ifs <;> simp

@[simp] theorem get_fat_n_fatent (fs : FATFS) (clst : Nat) :
    (get_fat fs clst).2.n_fatent = fs.n_fatent := by
  unfold get_fat; split_ifs <;> simp

@[simp] theorem get_fat_fatbase (fs : FATFS) (clst : Nat) :
    (get_fat fs clst).2.fatbase = fs.fatbase := by
  unfold get_fat; split_ifs <;> simp

@[simp] theorem get_fat_free_clst (fs : FATFS) (clst : Nat) :
    (get_fat fs clst).2.free_clst = fs.free_clst := by
  unfold get_fat; split_ifs <;> simp

@[simp] theorem get_fat_last_clst (fs : FATFS) (clst : Nat) :
    (get_fat fs clst).2.last_clst = fs.last_clst := by
  unfold get_fat; split_ifs <;> simp

/-- On a coherent state, `get_fat` returns the pure FAT-entry value of
the overlay view. -/
theorem get_fat_val (fs : FATFS) (h : coherent fs) (clst : Nat) :
    (get_fat fs clst).1 = fatVal fs.fs_type fs.n_fatent fs.fatbase (ov fs) clst := by
  unfold get_fat fatVal
  split_ifs <;>
    first
    | rfl
    | simp only [move_window_win_eq, move_window_ov fs h]

theorem get_fat_ov (fs : FATFS) (h : coherent fs) (clst : Nat) :
    ov (get_fat fs clst).2 = ov fs := by
  unfold get_fat
  split_ifs <;>
    first
    | rfl
    | exact (move_window_ov _ (move_window_coherent fs h _) _).trans
        (move_window_ov fs h _)
    | exact move_window_ov fs h _

theorem get_fat_coherent (fs : FATFS) (h : coherent fs) (clst : Nat) :
    coherent (get_fat fs clst).2 := by
  unfold get_fat
  split_ifs <;>
    first
    | exact h
    | exact move_window_coherent _ (move_window_coherent fs h _) _
    | exact move_window_coherent fs h _

/-! ## `put_fat` abstraction -/

@[simp] theorem put_fat_fs_type (fs : FATFS) (clst v : Nat) :
    (put_fat fs clst v).2.fs_type = fs.fs_type := by
  unfold put_fat; split_ifs <;> simp

@[simp] theorem put_fat_n_fatent (fs : FATFS) (clst v : Nat) :
    (put_fat fs clst v).2.n_fatent = fs.n_fatent := by
  unfold put_fat; split_ifs <;> simp

@[simp] theorem put_fat_fatbase (fs : FATFS) (clst v : Nat) :
    (put_fat fs clst v).2.fatbase = fs.fatbase := by
  unfold put_fat; split_ifs <;> simp

theorem move_window_ov_w (fsW : FATFS) (u : Nat → Nat) (sect : Nat) :
    ov (move_window { fsW with win := u, wflag := true } sect) =
      ov { fsW with win := u, wflag := true } :=
  move_window_ov _ (fun hw => Bool.noConfusion hw) sect

theorem put_fat16_spec (fs : FATFS) (h : coherent fs) (hty : fs.fs_type = FS_FAT16)
    (clst v : Nat) (hc1 : 2 ≤ clst) (hc2 : clst < fs.n_fatent) :
    (put_fat fs clst v).1 = FR_OK ∧
    coherent (put_fat fs clst v).2 ∧
    ov (put_fat fs clst v).2 = fun sec i =>
      if sec = fs.fatbase + clst / (SS / 2) ∧ i = clst * 2 % SS then v % 256
      else if sec = fs.fatbase + clst / (SS / 2) ∧ i = clst * 2 % SS + 1 then
        v / 256 % 256
      else ov fs sec i := by
  have hne : ¬ fs.fs_type = FS_FAT12 := by rw [hty]; decide
  unfold put_fat
  rw [if_pos ⟨hc1, hc2⟩, if_neg hne, if_pos hty]
  refine ⟨rfl, fun hw => Bool.noConfusion hw, ?_⟩
  funext sec i
  rw [ov_write]
  simp only [move_window_winsect, move_window_win_eq, move_window_ov fs h]
  by_cases h1 : sec = fs.fatbase + clst / (SS / 2) <;>
    by_cases h2 : i = clst * 2 % SS <;>
    by_cases h3 : i = clst * 2 % SS + 1 <;>
    simp [h1, h2, h3, ov]

theorem put_fat32_spec (fs : FATFS) (h : coherent fs) (hty : fs.fs_type = FS_FAT32)
    (clst v : Nat) (hc1 : 2 ≤ clst) (hc2 : clst < fs.n_fatent) :
    (put_fat fs clst v).1 = FR_OK ∧
    coherent (put_fat fs clst v).2 ∧
    ov (put_fat fs clst v).2 = fun sec i =>
      let v2 := v % 0x10000000 +
        rawFat32 fs.fatbase (ov fs) clst / 0x10000000 % 16 * 0x10000000
      if sec = fs.fatbase + clst / (SS / 4) ∧ i = clst * 4 % SS then v2 % 256
      else if sec = fs.fatbase + clst / (SS / 4) ∧ i = clst * 4 % SS + 1 then
        v2 / 256 % 256
      else if sec = fs.fatbase + clst / (SS / 4) ∧ i = clst * 4 % SS + 2 then
        v2 / 65536 % 256
      else if sec = fs.fatbase + clst / (SS / 4) ∧ i = clst * 4 % SS + 3 then
        v2 / 16777216 % 256
      else ov fs sec i := by
  have hne : ¬ fs.fs_type = FS_FAT12 := by rw [hty]; decide
  have hne2 : ¬ fs.fs_type = FS_FAT16 := by rw [hty]; decide
  unfold put_fat
  rw [if_pos ⟨hc1, hc2⟩, if_neg hne, if_neg hne2, if_pos hty]
  refine ⟨rfl, fun hw => Bool.noConfusion hw, ?_⟩
  funext sec i
  rw [ov_write]
  simp only [move_window_winsect, move_window_win_eq, move_window_ov fs h, rawFat32]
  by_cases h1 : sec = fs.fatbase + clst / (SS / 4) <;>
    by_cases h2 : i = clst * 4 % SS <;>
    by_cases h3 : i = clst * 4 % SS + 1 <;>
    by_cases h4 : i = clst * 4 % SS + 2 <;>
    by_cases h5 : i = clst * 4 % SS + 3 <;>
    simp [h1, h2, h3, h4, h5, ov]

theorem put_fat12_spec (fs : FATFS) (h : coherent fs) (hty : fs.fs_type = FS_FAT12)
    (clst v : Nat) (hc1 : 2 ≤ clst) (hc2 : clst < fs.n_fatent) :
    (put_fat fs clst v).1 = FR_OK ∧
    coherent (put_fat fs clst v).2 ∧
    ov (put_fat fs clst v).2 = fun sec i =>
      let bc := clst + clst / 2
      let b0 := if clst % 2 = 1 then
          ov fs (fs.fatbase + bc / SS) (bc % SS) % 16 + v % 16 * 16
        else v % 256
      let b1 := if clst % 2 = 1 then v / 16 % 256
        else ov fs (fs.fatbase + (bc + 1) / SS) ((bc + 1) % SS) / 16 % 16 * 16 +
          v / 256 % 16
      if sec = fs.fatbase + (bc + 1) / SS ∧ i = (bc + 1) % SS then b1
      else if sec = fs.fatbase + bc / SS ∧ i = bc % SS then b0
      else ov fs sec i := by
  unfold put_fat
  rw [if_pos ⟨hc1, hc2⟩, if_pos hty]
  refine ⟨rfl, fun hw => Bool.noConfusion hw, ?_⟩
  funext sec i
  simp only [ov_write, move_window_ov_w, move_window_win_eq,
    move_window_ov fs h]
  simp only [move_window_winsect, SS]
  rcases Nat.lt_or_ge ((clst + clst / 2) % 512) 511 with hno | hyes
  · -- the two FAT12 half-bytes live in the same sector
    have e1 : (clst + clst / 2 + 1) % 512 = (clst + clst / 2) % 512 + 1 := by
      omega
    have e2 : (clst + clst / 2 + 1) / 512 = (clst + clst / 2) / 512 := by
      omega
    rw [e1, e2]
    have hne : ¬ ((clst + clst / 2) % 512 + 1 = (clst + clst / 2) % 512) := by
      omega
    by_cases hsA : sec = fs.fatbase + (clst + clst / 2) / 512 <;>
      by_cases hiX : i = (clst + clst / 2) % 512 + 1 <;>
      by_cases hiY : i = (clst + clst / 2) % 512 <;>
      simp [hsA, hiX, hiY, hne]
  · -- the entry straddles a sector boundary
    have hx0 : (clst + clst / 2) % 512 = 511 := by omega
    have e1 : (clst + clst / 2 + 1) % 512 = 0 := by omega
    have e2 : (clst + clst / 2 + 1) / 512 = (clst + clst / 2) / 512 + 1 := by
      omega
    rw [e1, e2, hx0]
    have hAB : ¬ (fs.fatbase + ((clst + clst / 2) / 512 + 1) =
        fs.fatbase + (clst + clst / 2) / 512) := by omega
    by_cases hsB : sec = fs.fatbase + ((clst + clst / 2) / 512 + 1) <;>
      by_cases hsA : sec = fs.fatbase + (clst + clst / 2) / 512 <;>
      by_cases hi0 : i = 0 <;>
      by_cases hi511 : i = 511 <;>
      simp [hsB, hsA, hi0, hi511, hAB]

/-! ## put/get roundtrip, per FAT type -/

theorem roundtrip16 (fs : FATFS) (hcoh : coherent fs)
    (hty : fs.fs_type = FS_FAT16) (c v : Nat) (hc1 : 2 ≤ c)
    (hc2 : c < fs.n_fatent) (hv : v < 65536) :
    (get_fat (put_fat fs c v).2 c).1 = v := by
  obtain ⟨hok, hcoh2, hov⟩ := put_fat16_spec fs hcoh hty c v hc1 hc2
  rw [get_fat_val _ hcoh2, put_fat_fs_type, put_fat_n_fatent, put_fat_fatbase,
    hov, hty]
  unfold fatVal
  rw [if_neg (by omega : ¬ (c < 2 ∨ fs.n_fatent ≤ c)),
    if_neg (by decide : ¬ (FS_FAT16 = FS_FAT12)), if_pos rfl]
  have hoff : ¬ (c * 2 % SS + 1 = c * 2 % SS) := by omega
  simp only [eq_self_iff_true, and_true, true_and, and_self, if_true,
    hoff, if_false, and_false, ite_true, ite_false]
  omega

theorem roundtrip32 (fs : FATFS) (hcoh : coherent fs)
    (hty : fs.fs_type = FS_FAT32) (c v : Nat) (hc1 : 2 ≤ c)
    (hc2 : c < fs.n_fatent) (hv : v < 0x10000000) :
    (get_fat (put_fat fs c v).2 c).1 = v := by
  obtain ⟨hok, hcoh2, hov⟩ := put_fat32_spec fs hcoh hty c v hc1 hc2
  rw [get_fat_val _ hcoh2, put_fat_fs_type, put_fat_n_fatent, put_fat_fatbase,
    hov, hty]
  unfold fatVal
  rw [if_neg (by omega : ¬ (c < 2 ∨ fs.n_fatent ≤ c)),
    if_neg (by decide : ¬ (FS_FAT32 = FS_FAT12)),
    if_neg (by decide : ¬ (FS_FAT32 = FS_FAT16)), if_pos rfl]
  have h10 : ¬ (c * 4 % SS + 1 = c * 4 % SS) := by omega
  have h20 : ¬ (c * 4 % SS + 2 = c * 4 % SS) := by omega
  have h21 : ¬ (c * 4 % SS + 2 = c * 4 % SS + 1) := by omega
  have h30 : ¬ (c * 4 % SS + 3 = c * 4 % SS) := by omega
  have h31 : ¬ (c * 4 % SS + 3 = c * 4 % SS + 1) := by omega
  have h32 : ¬ (c * 4 % SS + 3 = c * 4 % SS + 2) := by omega
  simp only [eq_self_iff_true, and_true, true_and, and_self, if_true,
    h10, h20, h21, h30, h31, h32, if_false, and_false, ite_true, ite_false]
  omega

theorem roundtrip12 (fs : FATFS) (hcoh : coherent fs)
    (hty : fs.fs_type = FS_FAT12) (c v : Nat) (hc1 : 2 ≤ c)
    (hc2 : c < fs.n_fatent) (hv : v < 4096) :
    (get_fat (put_fat fs c v).2 c).1 = v := by
  obtain ⟨hok, hcoh2, hov⟩ := put_fat12_spec fs hcoh hty c v hc1 hc2
  rw [get_fat_val _ hcoh2, put_fat_fs_type, put_fat_n_fatent, put_fat_fatbase,
    hov, hty]
  unfold fatVal
  rw [if_neg (by omega : ¬ (c < 2 ∨ fs.n_fatent ≤ c)), if_pos rfl]
  have hx : ¬ ((c + c / 2) % SS = (c + c / 2 + 1) % SS) := by
    unfold SS; omega
  simp only [eq_self_iff_true, and_true, true_and, and_self, if_true,
    hx, if_false, and_false, ite_true, ite_false]
  by_cases hp : c % 2 = 1 <;> simp only [hp, ite_true, ite_false] <;> omega

/-- Writing a FAT12 entry leaves the co-resident entry (the other half
of the shared middle byte) unchanged. -/
theorem preserve12 (fs : FATFS) (hcoh : coherent fs)
    (hty : fs.fs_type = FS_FAT12) (c v c' : Nat) (hc1 : 2 ≤ c)
    (hc2 : c < fs.n_fatent) (hc'1 : 2 ≤ c') (hc'2 : c' < fs.n_fatent)
    (hcr : c' = if c % 2 = 1 then c - 1 else c + 1)
    (hw : ∀ i, fs.win i < 256) (hd : ∀ sec i, fs.disk sec i < 256) :
    (get_fat (put_fat fs c v).2 c').1 = (get_fat fs c').1 := by
  obtain ⟨hok, hcoh2, hov⟩ := put_fat12_spec fs hcoh hty c v hc1 hc2
  have hovb : ∀ sec i, ov fs sec i < 256 := by
    intro sec i; unfold ov; split
    · exact hw i
    · exact hd sec i
  rw [get_fat_val _ hcoh2, get_fat_val _ hcoh, put_fat_fs_type,
    put_fat_n_fatent, put_fat_fatbase, hov, hty]
  unfold fatVal
  rw [if_neg (by omega : ¬ (c' < 2 ∨ fs.n_fatent ≤ c')), if_pos rfl]
  simp only [SS]
  by_cases hp : c % 2 = 1
  · have hce : c' = c - 1 := by simpa [hp] using hcr
    subst hce
    have e0 : c - 1 + (c - 1) / 2 = c + c / 2 - 1 := by omega
    rw [e0]
    have k1 : ¬ (fs.fatbase + (c + c / 2 - 1) / 512 =
        fs.fatbase + (c + c / 2 + 1) / 512 ∧
        (c + c / 2 - 1) % 512 = (c + c / 2 + 1) % 512) := by omega
    have k2 : ¬ (fs.fatbase + (c + c / 2 - 1) / 512 =
        fs.fatbase + (c + c / 2) / 512 ∧
        (c + c / 2 - 1) % 512 = (c + c / 2) % 512) := by omega
    have e1 : c + c / 2 - 1 + 1 = c + c / 2 := by omega
    rw [e1]
    have k3 : ¬ (fs.fatbase + (c + c / 2) / 512 =
        fs.fatbase + (c + c / 2 + 1) / 512 ∧
        (c + c / 2) % 512 = (c + c / 2 + 1) % 512) := by omega
    have kp : ¬ ((c - 1) % 2 = 1) := by omega
    have k0 : ¬ (c - 1 < 2 ∨ fs.n_fatent ≤ c - 1) := by omega
    simp only [k0, k1, k2, k3, kp, hp, eq_self_iff_true, and_self, and_true,
      true_and, ite_true, ite_false, if_true, if_false]
    omega
  · have hce : c' = c + 1 := by simpa [hp] using hcr
    subst hce
    have e0 : c + 1 + (c + 1) / 2 = c + c / 2 + 1 := by omega
    rw [e0]
    have e1 : c + c / 2 + 1 + 1 = c + c / 2 + 2 := by omega
    rw [e1]
    have k1 : ¬ (fs.fatbase + (c + c / 2 + 2) / 512 =
        fs.fatbase + (c + c / 2 + 1) / 512 ∧
        (c + c / 2 + 2) % 512 = (c + c / 2 + 1) % 512) := by omega
    have k2 : ¬ (fs.fatbase + (c + c / 2 + 2) / 512 =
        fs.fatbase + (c + c / 2) / 512 ∧
        (c + c / 2 + 2) % 512 = (c + c / 2) % 512) := by omega
    have kp : (c + 1) % 2 = 1 := by omega
    have hbB : ov fs (fs.fatbase + (c + c / 2 + 1) / 512)
        ((c + c / 2 + 1) % 512) < 256 := hovb _ _
    have k0 : ¬ (c + 1 < 2 ∨ fs.n_fatent ≤ c + 1) := by omega
    simp only [k0, k1, k2, kp, hp, eq_self_iff_true, and_self, and_true,
      true_and, ite_true, ite_false, if_true, if_false]
    omega

/-- C2: on every mounted volume (any FAT width, with the window
coherent and byte-valued storage, as every reachable mounted state is),
`put_fat` on a valid cluster succeeds, and `get_fat` of the same
cluster then returns exactly the written value (truncated to the FAT
width: any value below `fatWidth` round-trips) — including FAT12
entries that straddle a sector boundary (no geometry restriction
excludes them); moreover on FAT12 the put preserves the co-resident
entry (the one sharing the middle byte), i.e. its readback is
unchanged. -/
theorem C2_put_get_fat_roundtrip (fs : FATFS) (hcoh : coherent fs)
    (hw : ∀ i, fs.win i < 256) (hd : ∀ sec i, fs.disk sec i < 256)
    (hty : fs.fs_type = FS_FAT12 ∨ fs.fs_type = FS_FAT16 ∨
      fs.fs_type = FS_FAT32) :
    ∀ c v, 2 ≤ c → c < fs.n_fatent → v < fatWidth fs.fs_type →
      ((put_fat fs c v).1 = FR_OK ∧ (get_fat (put_fat fs c v).2 c).1 = v) ∧
      (fs.fs_type = FS_FAT12 →
        ∀ c', c' = (if c % 2 = 1 then c - 1 else c + 1) → 2 ≤ c' →
          c' < fs.n_fatent →
          (get_fat (put_fat fs c v).2 c').1 = (get_fat fs c').1) := by
  intro c v hc1 hc2 hv
  rcases hty with hty | hty | hty
  · rw [hty] at hv
    refine ⟨⟨(put_fat12_spec fs hcoh hty c v hc1 hc2).1,
      roundtrip12 fs hcoh hty c v hc1 hc2 (by simpa [fatWidth] using hv)⟩, ?_⟩
    intro _ c' hcr hc'1 hc'2
    exact preserve12 fs hcoh hty c v c' hc1 hc2 hc'1 hc'2 hcr hw hd
  · rw [hty] at hv
    refine ⟨⟨(put_fat16_spec fs hcoh hty c v hc1 hc2).1,
      roundtrip16 fs hcoh hty c v hc1 hc2 (by simpa [fatWidth] using hv)⟩,
      fun habs => absurd (hty.symm.trans habs) (by decide)⟩
  · rw [hty] at hv
    refine ⟨⟨(put_fat32_spec fs hcoh hty c v hc1 hc2).1,
      roundtrip32 fs hcoh hty c v hc1 hc2 (by simpa [fatWidth] using hv)⟩,
      fun habs => absurd (hty.symm.trans habs) (by decide)⟩

/-- Witness for C2 at a concrete volume and input. -/
theorem C2_put_get_fat_roundtrip_witness :
    ((put_fat volBlank 2 5).1 = FR_OK ∧
      (get_fat (put_fat volBlank 2 5).2 2).1 = 5) ∧
    (volBlank.fs_type = FS_FAT12 →
      ∀ c', c' = (if 2 % 2 = 1 then 2 - 1 else 2 + 1) → 2 ≤ c' →
        c' < volBlank.n_fatent →
        (get_fat (put_fat volBlank 2 5).2 c').1 = (get_fat volBlank c').1) :=
  C2_put_get_fat_roundtrip volBlank (fun _ i => rfl)
    (fun _ => Nat.succ_pos 255) (fun _ _ => Nat.succ_pos 255)
    (Or.inr (Or.inl rfl)) 2 5 (by decide) (by decide) (by decide)

/-- C9: on a FAT32 volume, `put_fat` stores `(v & 0x0FFFFFFF)`
combined with the previous raw entry's top four bits, which remain
unchanged: only the low 28 bits of the 32-bit FAT entry change. -/
theorem C9_put_fat32_preserves_top_bits (fs : FATFS) (hcoh : coherent fs)
    (hty : fs.fs_type = FS_FAT32) (hw : ∀ i, fs.win i < 256)
    (hd : ∀ sec i, fs.disk sec i < 256) (c v : Nat) (hc1 : 2 ≤ c)
    (hc2 : c < fs.n_fatent) :
    (put_fat fs c v).1 = FR_OK ∧
    rawFat32 fs.fatbase (ov (put_fat fs c v).2) c % 0x10000000 =
      v % 0x10000000 ∧
    rawFat32 fs.fatbase (ov (put_fat fs c v).2) c / 0x10000000 =
      rawFat32 fs.fatbase (ov fs) c / 0x10000000 ∧
    rawFat32 fs.fatbase (ov (put_fat fs c v).2) c =
      v % 0x10000000 +
        rawFat32 fs.fatbase (ov fs) c / 0x10000000 * 0x10000000 := by
  obtain ⟨hok, hcoh2, hov⟩ := put_fat32_spec fs hcoh hty c v hc1 hc2
  have hovb : ∀ sec i, ov fs sec i < 256 := by
    intro sec i; unfold ov; split
    · exact hw i
    · exact hd sec i
  refine ⟨hok, ?_⟩
  rw [hov]
  unfold rawFat32
  have h10 : ¬ (c * 4 % SS + 1 = c * 4 % SS) := by omega
  have h20 : ¬ (c * 4 % SS + 2 = c * 4 % SS) := by omega
  have h21 : ¬ (c * 4 % SS + 2 = c * 4 % SS + 1) := by omega
  have h30 : ¬ (c * 4 % SS + 3 = c * 4 % SS) := by omega
  have h31 : ¬ (c * 4 % SS + 3 = c * 4 % SS + 1) := by omega
  have h32 : ¬ (c * 4 % SS + 3 = c * 4 % SS + 2) := by omega
  simp only [eq_self_iff_true, and_true, true_and, and_self, if_true,
    h10, h20, h21, h30, h31, h32, if_false, and_false, ite_true, ite_false]
  have b0 := hovb (fs.fatbase + c / (SS / 4)) (c * 4 % SS)
  have b1 := hovb (fs.fatbase + c / (SS / 4)) (c * 4 % SS + 1)
  have b2 := hovb (fs.fatbase + c / (SS / 4)) (c * 4 % SS + 2)
  have b3 := hovb (fs.fatbase + c / (SS / 4)) (c * 4 % SS + 3)
  refine ⟨by omega, by omega, by omega⟩

/-- Witness for C9 at a concrete FAT32 volume. -/
theorem C9_put_fat32_preserves_top_bits_witness :
    (put_fat { volBlank with fs_type := FS_FAT32 } 2 7).1 = FR_OK ∧
    rawFat32 { volBlank with fs_type := FS_FAT32 }.fatbase
        (ov (put_fat { volBlank with fs_type := FS_FAT32 } 2 7).2) 2 %
        0x10000000 = 7 % 0x10000000 ∧
    rawFat32 { volBlank with fs_type := FS_FAT32 }.fatbase
        (ov (put_fat { volBlank with fs_type := FS_FAT32 } 2 7).2) 2 /
        0x10000000 =
      rawFat32 { volBlank with fs_type := FS_FAT32 }.fatbase
        (ov { volBlank with fs_type := FS_FAT32 }) 2 / 0x10000000 ∧
    rawFat32 { volBlank with fs_type := FS_FAT32 }.fatbase
        (ov (put_fat { volBlank with fs_type := FS_FAT32 } 2 7).2) 2 =
      7 % 0x10000000 +
        rawFat32 { volBlank with fs_type := FS_FAT32 }.fatbase
          (ov { volBlank with fs_type := FS_FAT32 }) 2 / 0x10000000 *
          0x10000000 :=
  C9_put_fat32_preserves_top_bits { volBlank with fs_type := FS_FAT32 }
    (fun _ i => rfl) rfl (fun _ => Nat.succ_pos 255)
    (fun _ _ => Nat.succ_pos 255) 2 7 (by decide) (by decide)

/-- C4: for a mounted geometry (`n_fatent ≥ 2` and `< 2^32`, at least
one sector per cluster, data region within the 32-bit sector space),
`clst2sect` maps every valid cluster to
`database + csize * (cluster - 2)`, returns the invalid marker `0` for
every 32-bit cluster number outside `[2, n_fatent)` — including 0 and 1
whose `DWORD` subtraction wraps — reads nothing but the geometry (the
device/window state is irrelevant: it performs no I/O), is injective on
valid clusters, and yields pairwise disjoint cluster-sized sector
ranges. -/
theorem C4_clst2sect_spec (fs : FATFS) (h2 : 2 ≤ fs.n_fatent)
    (h32 : fs.n_fatent < 2 ^ 32) (hcs : 1 ≤ fs.csize)
    (hno : fs.database + fs.csize * (fs.n_fatent - 2) < 2 ^ 32) :
    (∀ c, 2 ≤ c → c < fs.n_fatent →
      clst2sect fs c = fs.database + fs.csize * (c - 2)) ∧
    (∀ c, c < 2 ^ 32 → c < 2 ∨ fs.n_fatent ≤ c → clst2sect fs c = 0) ∧
    (∀ d w ws wf c,
      clst2sect { fs with disk := d, win := w, winsect := ws, wflag := wf } c =
        clst2sect fs c) ∧
    (∀ c1 c2, 2 ≤ c1 → c1 < fs.n_fatent → 2 ≤ c2 → c2 < fs.n_fatent →
      c1 ≠ c2 → clst2sect fs c1 ≠ clst2sect fs c2) ∧
    (∀ c1 c2 k1 k2, 2 ≤ c1 → c1 < fs.n_fatent → 2 ≤ c2 → c2 < fs.n_fatent →
      c1 ≠ c2 → k1 < fs.csize → k2 < fs.csize →
      clst2sect fs c1 + k1 ≠ clst2sect fs c2 + k2) := by
  have hpow : (2 : Nat) ^ 32 = 4294967296 := by norm_num
  have hmain : ∀ c, 2 ≤ c → c < fs.n_fatent →
      clst2sect fs c = fs.database + fs.csize * (c - 2) := by
    intro c hc1 hc2
    unfold clst2sect
    simp only [hpow]
    have e1 : (c + (4294967296 - 2)) % 4294967296 = c - 2 := by omega
    have e2 : (fs.n_fatent + (4294967296 - 2)) % 4294967296 =
        fs.n_fatent - 2 := by omega
    rw [e1, e2, if_neg (by omega)]
    have hle : fs.csize * (c - 2) ≤ fs.csize * (fs.n_fatent - 2) :=
      Nat.mul_le_mul_left _ (by omega)
    omega
  have key : ∀ a b ka, 2 ≤ a → a < b → ka < fs.csize →
      fs.csize * (a - 2) + ka < fs.csize * (b - 2) := by
    intro a b ka ha hab hka
    have h1 : fs.csize * (a - 2) + fs.csize = fs.csize * (a - 2 + 1) :=
      (Nat.mul_succ _ _).symm
    have h3 : fs.csize * (a - 2 + 1) ≤ fs.csize * (b - 2) :=
      Nat.mul_le_mul_left _ (by omega)
    omega
  have hdisj : ∀ c1 c2 k1 k2, 2 ≤ c1 → c1 < fs.n_fatent → 2 ≤ c2 →
      c2 < fs.n_fatent → c1 ≠ c2 → k1 < fs.csize → k2 < fs.csize →
      clst2sect fs c1 + k1 ≠ clst2sect fs c2 + k2 := by
    intro c1 c2 k1 k2 ha1 ha2 hb1 hb2 hne hk1 hk2
    rw [hmain c1 ha1 ha2, hmain c2 hb1 hb2]
    rcases Nat.lt_or_ge c1 c2 with hlt | hge
    · have := key c1 c2 k1 ha1 hlt hk1
      omega
    · have hgt : c2 < c1 := by omega
      have := key c2 c1 k2 hb1 hgt hk2
      omega
  refine ⟨hmain, ?_, fun d w ws wf c => rfl, ?_, hdisj⟩
  · intro c hc32 hout
    unfold clst2sect
    simp only [hpow]
    have e2 : (fs.n_fatent + (4294967296 - 2)) % 4294967296 =
        fs.n_fatent - 2 := by omega
    rw [e2, if_pos (by omega)]
  · intro c1 c2 ha1 ha2 hb1 hb2 hne
    have := hdisj c1 c2 0 0 ha1 ha2 hb1 hb2 hne (by omega) (by omega)
    omega

/-- Witness for C4 on a concrete mounted geometry. -/
theorem C4_clst2sect_spec_witness :
    (∀ c, 2 ≤ c → c < volBlank.n_fatent →
      clst2sect volBlank c = volBlank.database + volBlank.csize * (c - 2)) ∧
    (∀ c, c < 2 ^ 32 → c < 2 ∨ volBlank.n_fatent ≤ c →
      clst2sect volBlank c = 0) ∧
    (∀ d w ws wf c,
      clst2sect
        { volBlank with disk := d, win := w, winsect := ws, wflag := wf } c =
        clst2sect volBlank c) ∧
    (∀ c1 c2, 2 ≤ c1 → c1 < volBlank.n_fatent → 2 ≤ c2 →
      c2 < volBlank.n_fatent → c1 ≠ c2 →
      clst2sect volBlank c1 ≠ clst2sect volBlank c2) ∧
    (∀ c1 c2 k1 k2, 2 ≤ c1 → c1 < volBlank.n_fatent → 2 ≤ c2 →
      c2 < volBlank.n_fatent → c1 ≠ c2 → k1 < volBlank.csize →
      k2 < volBlank.csize →
      clst2sect volBlank c1 + k1 ≠ clst2sect volBlank c2 + k2) :=
  C4_clst2sect_spec volBlank (by decide) (by decide) (by decide) (by decide)

/-- C3 (code bug): `check_fs` tests the signature word at byte offset
36 (`BS_BootSig - 2`), not at 0x1FE.  A standards-formatted boot sector
(0xAA55 at 0x1FE, `"FAT"` tag, drive number 0x80 at 36) is rejected
with `FR_NO_FILESYSTEM`, while a sector carrying 0xAA55 at offset 36
with zeros at 0x1FE is accepted — both contradicting the claim. -/
theorem C3_check_fs_reads_wrong_offset :
    bootStd 510 + bootStd 511 * 256 = 0xAA55 ∧
    (check_fs (volOfBoot bootStd) 0).1 = FR_NO_FILESYSTEM ∧
    ¬ (bootOdd 510 + bootOdd 511 * 256 = 0xAA55) ∧
    (check_fs (volOfBoot bootOdd) 0).1 = FR_OK := by decide

/-- C10: `f_readdir` on a valid open iterator with a null info pointer
resets the scan index to 0 and returns `FR_OK`, touching neither the
volume state (no device read) nor any other iterator field. -/
theorem C10_readdir_null_rewinds (fs : FATFS) (dp : DIRobj)
    (h : dp.fsValid = true) :
    f_readdir fs dp false = (FR_OK, fs, { dp with index := 0 }, none) := by
  simp [f_readdir, h]

/-- Witness for C10 at a concrete iterator mid-scan. -/
theorem C10_readdir_null_rewinds_witness :
    f_readdir volBlank ⟨true, 1, 7, 0⟩ false =
      (FR_OK, volBlank, { (⟨true, 1, 7, 0⟩ : DIRobj) with index := 0 }, none) :=
  C10_readdir_null_rewinds volBlank ⟨true, 1, 7, 0⟩ rfl

/-- C5 (amended): once the handle's error flag is latched (as `ABORT`
does in `f_read`/`f_write` on a failed transfer), every subsequent
`f_read`, `f_write`, or `f_lseek` on that handle returns `FR_INT_ERR`
immediately, leaving the volume, the handle and the caller's buffer
untouched; `f_sync` (and so `f_close`) does not check the latched
flag. -/
theorem C5_latched_error_fails_fast (fs : FATFS) (fp : FIL) (buf : Nat → Nat)
    (btr btw ofs : Nat) (hv : fp.fsValid = true) (he : fp.err ≠ 0) :
    f_read fs fp buf btr = (FR_INT_ERR, fs, fp, buf, 0) ∧
    f_write fs fp buf btw = (FR_INT_ERR, fs, fp, 0) ∧
    f_lseek fs fp ofs = (FR_INT_ERR, fs, fp) := by
  unfold f_read f_write f_lseek
  simp [hv, he]

/-- Witness for C5 (amended) on a concrete latched handle. -/
theorem C5_latched_error_fails_fast_witness :
    f_read volBlank filErrLatched (fun _ => 0) 4 =
      (FR_INT_ERR, volBlank, filErrLatched, (fun _ => 0), 0) ∧
    f_write volBlank filErrLatched (fun _ => 0) 4 =
      (FR_INT_ERR, volBlank, filErrLatched, 0) ∧
    f_lseek volBlank filErrLatched 4 =
      (FR_INT_ERR, volBlank, filErrLatched) :=
  C5_latched_error_fails_fast volBlank filErrLatched (fun _ => 0) 4 4 4 rfl
    (by decide)

/-- C5 counterexample: `f_sync` on a handle whose error flag is latched
(`err = 2`) does not fail fast — it returns `FR_OK` and still writes
the directory entry back to the device (byte 11 of the directory
sector changes), contradicting the claim that every subsequent call
including `f_sync` fails without transferring data. -/
theorem C5_f_sync_ignores_latched_error :
    filErrLatched.err ≠ 0 ∧
    (f_sync volBlank filErrLatched).1 = FR_OK ∧
    ¬ ((f_sync volBlank filErrLatched).2.1.disk 9 11 = volBlank.disk 9 11) := by
  decide

/-- C1 (code bug): on a fresh FAT16 volume (512-byte sectors, 1 sector
per cluster) the write-then-read-from-0 round trip holds for N = 0,
mid-sector N = 100 and exact-sector/exact-cluster N = 512, but a
multi-cluster write of N = 1024 bytes to a fresh empty file aborts
with `FR_INT_ERR` after only 512 bytes: at the cluster boundary
`f_write` does `clst = get_fat(...); if (clst < 2)` — the end-of-chain
marker 0xFFFF it reads back is not `< 2`, so instead of allocating a
new cluster ("分配新簇", as the adjacent code comment intends) it uses
0xFFFF as a cluster number, `clst2sect` rejects it, and the handle's
error flag is latched. -/
theorem C1_write_read_roundtrip_code_bug :
    ((f_write volBlank filBlank (fun i => i % 256) 0).1 = FR_OK ∧
      (f_write volBlank filBlank (fun i => i % 256) 0).2.2.2 = 0) ∧
    (let w := f_write volBlank filBlank (fun i => i % 256) 100
     let l := f_lseek w.2.1 w.2.2.1 0
     let r := f_read l.2.1 l.2.2 (fun _ => 0) 100
     w.1 = FR_OK ∧ r.1 = FR_OK ∧ r.2.2.2.2 = 100 ∧
     ((List.range 100).all fun i => r.2.2.2.1 i == i % 256) = true) ∧
    (let w := f_write volBlank filBlank (fun i => i % 256) 512
     let l := f_lseek w.2.1 w.2.2.1 0
     let r := f_read l.2.1 l.2.2 (fun _ => 0) 512
     w.1 = FR_OK ∧ r.1 = FR_OK ∧ r.2.2.2.2 = 512 ∧
     ((List.range 512).all fun i => r.2.2.2.1 i == i % 256) = true) ∧
    (f_write volBlank filBlank (fun i => i % 256) 1024).1 = FR_INT_ERR ∧
    (f_write volBlank filBlank (fun i => i % 256) 1024).2.2.2 = 512 ∧
    (f_write volBlank filBlank (fun i => i % 256) 1024).2.2.1.err = 2 ∧
    (get_fat (f_write volBlank filBlank (fun i => i % 256) 1024).2.1 2).1 =
      0xFFFF := by
  set_option maxRecDepth 10000 in decide

theorem upc_upc (c : Nat) : upc (upc c) = upc c := by
  unfold upc; split_ifs <;> omega

theorem upc_comp_upc : upc ∘ upc = upc := funext upc_upc

theorem q46_upc :
    ((fun c => decide (¬ (c = 0 ∨ c = 46))) ∘ upc)
      = (fun c => decide (¬ (c = 0 ∨ c = 46))) := by
  funext c
  simp only [Function.comp_apply, decide_eq_decide]
  unfold upc; split_ifs with h <;> omega

theorem q0_upc :
    ((fun c => decide (¬ c = 0)) ∘ upc) = (fun c => decide (¬ c = 0)) := by
  funext c
  simp only [Function.comp_apply, decide_eq_decide]
  unfold upc; split_ifs with h <;> omega

theorem getD_map_upc_46 (l : List Nat) :
    ((l.map upc).getD 0 0 = 46) ↔ (l.getD 0 0 = 46) := by
  cases l with
  | nil => simp
  | cons a t =>
    simp only [List.map_cons, List.getD_cons_zero]
    unfold upc; split_ifs with h <;> omega

/-- The built 8.3 name is always exactly 11 bytes. -/
theorem buildSFN_length (p : List Nat) : (buildSFN p).length = 11 := by
  simp only [buildSFN, List.length_append, List.length_map,
    List.length_replicate, List.length_take]
  split_ifs with h
  · simp only [List.length_take]; omega
  · simp only [List.length_nil]; omega

/-- Upper-casing the path before normalisation changes nothing: the
lookup key, hence the lookup, is case-insensitive. -/
theorem buildSFN_map_upc (p : List Nat) : buildSFN (p.map upc) = buildSFN p := by
  simp only [buildSFN, List.takeWhile_map, q46_upc, q0_upc, ← List.map_take,
    ← List.map_drop, List.length_map, List.map_map, upc_comp_upc,
    getD_map_upc_46]
  split_ifs with h
  · simp only [List.map_map, upc_comp_upc, List.length_map]
  · simp only [List.map_nil]

theorem takeWhile_take_comm (q : Nat → Bool) :
    ∀ (p : List Nat) (n : Nat),
      (p.take n).takeWhile q = (p.takeWhile q).take n := by
  intro p
  induction p with
  | nil => intro n; simp
  | cons a t ih =>
    intro n
    cases n with
    | zero => simp
    | succ m =>
      simp only [List.take_succ_cons, List.takeWhile_cons]
      by_cases hq : q a
      · simp [hq, ih m]
      · simp [hq]

theorem tw_getD_q (q : Nat → Bool) :
    ∀ (p : List Nat) (n : Nat), n < (p.takeWhile q).length →
      q (p.getD n 0) := by
  intro p
  induction p with
  | nil => intro n h; simp at h
  | cons a t ih =>
    intro n h
    by_cases hq : q a
    · cases n with
      | zero => simpa using hq
      | succ m =>
        simp only [List.takeWhile_cons, hq, if_true, List.length_cons] at h
        simp only [List.getD_cons_succ]
        exact ih m (by omega)
    · simp [List.takeWhile_cons, hq] at h

theorem drop_getD (p : List Nat) : ∀ n, (p.drop n).getD 0 0 = p.getD n 0 := by
  induction p with
  | nil => intro n; simp
  | cons a t ih =>
    intro n
    cases n with
    | zero => simp
    | succ m => simpa using ih m

/-- A base of more than 8 non-terminator characters is silently cut at
8: the normalised key only depends on the first 8 path bytes. -/
theorem buildSFN_truncates (p : List Nat)
    (h : 9 ≤ (p.takeWhile fun c => ¬ (c = 0 ∨ c = 46)).length) :
    buildSFN p = buildSFN (p.take 8) := by
  have hq8 := tw_getD_q (fun c => decide (¬ (c = 0 ∨ c = 46))) p 8 (by omega)
  simp only [decide_eq_true_eq] at hq8
  have hlen : ((p.takeWhile fun c => ¬ (c = 0 ∨ c = 46)).take 8).length = 8 := by
    simp only [List.length_take]; omega
  simp only [buildSFN, takeWhile_take_comm, List.take_take, Nat.min_self,
    hlen, drop_getD]
  rw [if_neg (by omega : ¬ (p.getD 8 0 = 46))]
  have hgd : (List.take 8 p).getD 8 0 = 0 := by
    apply List.getD_eq_default
    simpa using List.length_take_le 8 p
  simp only [hgd]
  simp

/-- C7 counterexample: the directory holding the single 8.3 entry
`"ABCDEFGH"` resolves the path `"0:ABCDEFGHIJ"`, whose base has 10
characters, to that entry with `FR_OK` — the lookup does not reject a
too-long base, it matches its 8-character truncation. -/
theorem C7_long_name_not_rejected :
    (pathLong.drop 2).length = 10 ∧
    (f_open volDirEntry pathLong 1).1 = FR_OK ∧
    ((f_open volDirEntry pathLong 1).2.2.map FIL.dir_sect).getD 0 = 9 ∧
    ((f_open volDirEntry pathLong 1).2.2.map FIL.dir_ofs).getD 99 = 0 ∧
    buildSFN (pathLong.drop 2)
      = [65, 66, 67, 68, 69, 70, 71, 72, 32, 32, 32] := by decide

/-- C7 (amended): the name normalisation used by the lookup produces an
11-byte key, is case-insensitive (upper-casing the path first changes
nothing), and silently truncates a base longer than 8 characters to its
first 8 bytes instead of rejecting it. -/
theorem C7_sfn_normalization (p : List Nat) :
    (buildSFN p).length = 11 ∧
    buildSFN (p.map upc) = buildSFN p ∧
    (9 ≤ (p.takeWhile fun c => ¬ (c = 0 ∨ c = 46)).length →
      buildSFN p = buildSFN (p.take 8)) :=
  ⟨buildSFN_length p, buildSFN_map_upc p, buildSFN_truncates p⟩

/-- C7 witness: the normalisation facts instantiated at the 10-character
base `"ABCDEFGHIJ"`. -/
theorem C7_sfn_normalization_witness :
    9 ≤ (([65, 66, 67, 68, 69, 70, 71, 72, 73, 74] : List Nat).takeWhile
        fun c => ¬ (c = 0 ∨ c = 46)).length ∧
    buildSFN [65, 66, 67, 68, 69, 70, 71, 72, 73, 74]
      = buildSFN (([65, 66, 67, 68, 69, 70, 71, 72, 73, 74] :
          List Nat).take 8) :=
  ⟨by decide,
    (C7_sfn_normalization [65, 66, 67, 68, 69, 70, 71, 72, 73, 74]).2.2
      (by decide)⟩

/-! ## C8: free-cluster count and its cache -/

/-- C8: on a 4-data-cluster FAT16 volume with a valid (and initially
correct) cached count of 4, `f_getfree` returns the cache without
scanning; with the cache invalid it scans, returns the true count and
caches it; but after `f_write` allocates cluster 2 (leaving 3 free FAT
entries), `f_getfree` still returns the stale cached 4 — allocation
never touches `free_clst`, so the cache is not invalidated. -/
theorem C8_getfree_stale_cache :
    ((f_getfree volCached [48, 58]).1 = FR_OK ∧
     (f_getfree volCached [48, 58]).2.2 = 4 ∧
     freeFatCount FS_FAT16 6 1 (ov volCached) = 4) ∧
    ((f_getfree { volCached with free_clst := 2 ^ 32 - 1 } [48, 58]).2.2
        = 4 ∧
     (f_getfree { volCached with free_clst := 2 ^ 32 - 1 }
        [48, 58]).2.1.free_clst = 4) ∧
    ((f_write volCached filBlank (fun i => i % 256) 10).1 = FR_OK ∧
     freeFatCount FS_FAT16 6 1
       (ov (f_write volCached filBlank (fun i => i % 256) 10).2.1) = 3 ∧
     (f_getfree (f_write volCached filBlank (fun i => i % 256) 10).2.1
        [48, 58]).1 = FR_OK ∧
     (f_getfree (f_write volCached filBlank (fun i => i % 256) 10).2.1
        [48, 58]).2.2 = 4) := by
  set_option maxRecDepth 10000 in decide

end FatFs
